import Mathlib

/-!
Shallow embedding of the nzxtcli repository (src/types.rs, src/controller.rs,
src/lib.rs, src/main.rs) and proofs about its specification claims.

Machine integers (u8, u16, u64) are modelled as Nat with explicit `% 2 ^ w`
at the points where the Rust code performs a narrowing cast or stores into a
narrower type. Byte buffers are modelled as `List Nat`.
-/

namespace Nzxtcli

/-! ## types.rs: Color -/

/-- Embeds `struct Color([u8; 3])` from src/types.rs. The three fields are
the raw bytes of the inner array, in array order: slot 0 holds green, slot 1
holds red, slot 2 holds blue (the GRB wire quirk). -/
structure Color where
  c0 : Nat
  c1 : Nat
  c2 : Nat
  deriving DecidableEq, Repr

/-- Embeds `Color::new(red, green, blue) = Self([green, red, blue])`. -/
def Color.new (red green blue : Nat) : Color := ⟨green, red, blue⟩

/-- Embeds `Color::red(&self) = self.0[1]`. -/
def Color.red (c : Color) : Nat := c.c1

/-- Embeds `Color::green(&self) = self.0[0]`. -/
def Color.green (c : Color) : Nat := c.c0

/-- Embeds `Color::blue(&self) = self.0[2]`. -/
def Color.blue (c : Color) : Nat := c.c2

/-- Embeds `Color::inner(&self) = &self.0`: the raw 3-byte array. -/
def Color.inner (c : Color) : List Nat := [c.c0, c.c1, c.c2]

/-- Embeds `Color::wrap_slice`: reinterprets a slice of colors as the flat
byte slice of their inner arrays. -/
def Color.wrapSlice (colors : List Color) : List Nat :=
  (colors.map Color.inner).flatten

/-- All three stored bytes fit in a u8, as they do in the Rust type. -/
def Color.wf (c : Color) : Prop := c.c0 < 256 ∧ c.c1 < 256 ∧ c.c2 < 256

instance (c : Color) : Decidable c.wf := by unfold Color.wf; infer_instance

/-- Embeds the lowercase hex digit produced by the `{:02x}` format for one
4-bit value. -/
def hexDigitChar (n : Nat) : Char :=
  match n with
  | 0 => '0' | 1 => '1' | 2 => '2' | 3 => '3' | 4 => '4'
  | 5 => '5' | 6 => '6' | 7 => '7' | 8 => '8' | 9 => '9'
  | 10 => 'a' | 11 => 'b' | 12 => 'c' | 13 => 'd' | 14 => 'e' | 15 => 'f'
  | _ => '*'

/-- Two lowercase hex digits of a byte, as `{:02x}` prints a u8. -/
def hex2 (n : Nat) : List Char :=
  [hexDigitChar (n / 16 % 16), hexDigitChar (n % 16)]

/-- Embeds the Display impl for Color from src/types.rs: the text form
as a character list, a hash sign followed by red, green, blue in hex. -/
def Color.displayChars (c : Color) : List Char :=
  '#' :: (hex2 c.red ++ hex2 c.green ++ hex2 c.blue)

/-- Numeric value of one hex digit character, upper or lower case, as
accepted by u32::from_str_radix with radix 16. -/
def hexDigitVal? (ch : Char) : Option Nat :=
  if '0' ≤ ch ∧ ch ≤ '9' then some (ch.toNat - 48)
  else if 'a' ≤ ch ∧ ch ≤ 'f' then some (ch.toNat - 87)
  else if 'A' ≤ ch ∧ ch ≤ 'F' then some (ch.toNat - 55)
  else none

/-- Accumulating hex evaluation of a digit string; none on an invalid
character. -/
def hexVal : List Char → Nat → Option Nat
  | [], acc => some acc
  | ch :: rest, acc =>
    match hexDigitVal? ch with
    | none => none
    | some d => hexVal rest (acc * 16 + d)

/-- Embeds `u32::from_str_radix(s, 16)`: an optional leading plus sign, then
a nonempty string of hex digits; the result must fit in a u32. -/
def fromStrRadix16 (s : List Char) : Option Nat :=
  match s with
  | [] => none
  | c :: rest =>
    let v := if c = '+' then (if rest = [] then none else hexVal rest 0)
             else hexVal (c :: rest) 0
    match v with
    | none => none
    | some n => if n < 2 ^ 32 then some n else none

/-- Embeds the strip of the optional leading hash sign at the start of
from_str. -/
def stripHash (s : List Char) : List Char :=
  match s with
  | [] => []
  | c :: rest => if c = '#' then rest else c :: rest

/-- The substitution of a lone zero for an all-zeros-trimmed string,
mirroring the `if s.is_empty` fallback of from_str. -/
def orZero (s2 : List Char) : List Char :=
  if s2 = [] then ['0'] else s2

/-- The body of from_str after the hash strip: require exactly six
characters, trim leading zeros (substituting a lone zero when all were
zeros), parse as hex, and build the color from the big-endian bytes of
the value, storing [g, r, b]. -/
def parseHex6 (s1 : List Char) : Option Color :=
  if s1.length ≠ 6 then none
  else
    match fromStrRadix16 (orZero (s1.dropWhile (fun c => c = '0'))) with
    | none => none
    | some v => some ⟨v / 2 ^ 8 % 256, v / 2 ^ 16 % 256, v % 256⟩

/-- Embeds `<Color as FromStr>::from_str` from src/types.rs: drop one
leading hash sign, then parse the six-character hex body. -/
def color_from_str (s : List Char) : Option Color :=
  parseHex6 (stripHash s)

/-! ## controller.rs: device identity table and topology prober -/

/-- Embeds the HUE_2_NUM_CHANNELS constant (6 sub-device slots per channel). -/
def HUE_2_NUM_CHANNELS : Nat := 6

/-- Embeds the `match id` table inside get_channels_info in
src/controller.rs: LED count and display name per sub-device identifier,
with unknown identifiers mapping to zero LEDs. -/
def subDeviceInfo (id : Nat) : Nat × String :=
  match id with
  | 0x01 => (10, "Hue 1 strip")
  | 0x02 => (8, "Aer 1 fan")
  | 0x04 => (10, "Hue 2 strip (10 LEDs)")
  | 0x05 => (8, "// Hue 2 strip (8 LEDs)")
  | 0x06 => (6, "Hue 2 strip (6 LEDs)")
  | 0x08 => (14, "Hue 2 Cable Comb (14 LEDs)")
  | 0x09 => (15, "Hue 2 Underglow (300mm) (15 LEDs)")
  | 0x0a => (10, "Hue 2 Underglow (200mm) (10 LEDs)")
  | 0x0b => (8, "Aer 2 fan (120mm)")
  | 0x0c => (8, "Aer 2 fan (140mm)")
  | 0x10 => (8, "Kraken X3 ring")
  | 0x11 => (1, "Kraken X3 logo")
  | 0x13 => (18, "F120 RGB fan (120mm)")
  | 0x14 => (18, "F140 RGB fan (140mm)")
  | 0x15 => (20, "F120 RGB Duo fan (120mm)")
  | 0x16 => (20, "F140 RGB Duo fan (140mm)")
  | 0x17 => (8, "F120 RGB Core fan (120mm)")
  | 0x18 => (8, "F140 RGB Core fan (140mm)")
  | 0x19 => (8, "F120 RGB Core fan case version (120mm)")
  | 0x1d => (24, "F360 RGB Core Fan Case Version (360mm)")
  | 0x1e => (24, "Kraken Elite Ring")
  | _ => (0, "<unknown>")

/-- Embeds `struct ChannelDeviceInfo` from src/controller.rs. -/
structure ChannelDeviceInfo where
  id : Nat
  name : String
  led_count : Nat
  deriving DecidableEq, Repr

instance : Inhabited ChannelDeviceInfo := ⟨⟨0, "", 0⟩⟩

/-- Embeds `struct RgbChannel` from src/controller.rs: total LED count and
the six fixed sub-device slots. The Default impl zeroes the count and the
slots. -/
structure RgbChannel where
  led_count : Nat
  devices : List ChannelDeviceInfo
  deriving DecidableEq, Repr

/-- The `RgbChannel::default()` value: zero LEDs, six default slots. -/
def RgbChannel.default : RgbChannel :=
  ⟨0, List.replicate HUE_2_NUM_CHANNELS ⟨0, "", 0⟩⟩

instance : Inhabited RgbChannel := ⟨RgbChannel.default⟩

/-- One step of the inner slot loop of get_channels_info: resolve the
identifier byte at the slot, skip unrecognized ones, otherwise record the
slot and add its LED count. -/
def probeSlotStep (buffer : Nat → Nat) (start : Nat)
    (info : RgbChannel) (dev : Nat) : RgbChannel :=
  let id := buffer (start + dev)
  let e := subDeviceInfo id
  if e.1 = 0 then info
  else
    { led_count := info.led_count + e.1
      devices := info.devices.set dev ⟨id, e.2, e.1⟩ }

/-- Embeds the parsing phase of get_channels_info from src/controller.rs:
for each requested channel, fold the six identifier bytes starting at
offset 0x0f + 6 * channel into an RgbChannel. The probe response buffer is
modelled as a total byte function. -/
def get_channels_info (buffer : Nat → Nat) (rgb_channels : Nat) :
    List RgbChannel :=
  (List.range rgb_channels).map fun channel =>
    let start := 0x0f + HUE_2_NUM_CHANNELS * channel
    (List.range HUE_2_NUM_CHANNELS).foldl
      (probeSlotStep buffer start) RgbChannel.default

/-! ## controller.rs: frame encoder -/

/-- Embeds `copy_from_slice` into a sub-range of a buffer starting at a
given offset. -/
def copySlice (buf : List Nat) (off : Nat) (data : List Nat) : List Nat :=
  buf.take off ++ data ++ buf.drop (off + data.length)

/-- Embeds send_direct from src/controller.rs, producing the 64-byte report
that a successful write sends: zero-filled buffer, command byte 0x22, group
status byte, channel bit mask (a u8, so reduced mod 256), and the packed
GRB color bytes at offset 4. -/
def send_direct_buf (channel group : Nat) (color_data : List Color) :
    List Nat :=
  let buffer := List.replicate 64 0
  let buffer := buffer.set 0x00 0x22
  let buffer := buffer.set 0x01 (0x10 ||| group)
  let buffer := buffer.set 0x02 (1 <<< channel % 256)
  let buffer := buffer.set 0x03 0x00
  copySlice buffer 0x04 (Color.wrapSlice color_data)

/-- Embeds send_apply from src/controller.rs, producing the 64-byte apply
report. -/
def send_apply_buf (channel : Nat) : List Nat :=
  (((((((((List.replicate 64 0).set 0x00 0x22).set 0x01 0xa0).set
    0x02 (1 <<< channel % 256)).set 0x04 0x01).set 0x07 0x28).set
    0x0a 0x80).set 0x0c 0x32).set 0x0f 0x01)

/-- Embeds the chunking loop of set_channel_leds from src/controller.rs:
while colors remain, send a direct report with at most 20 of them and an
incremented group index; afterwards send the apply report. The result is
the sequence of 64-byte reports written. -/
def sendChannelGroups (channel : Nat) (colors : List Color) (group : Nat) :
    List (List Nat) :=
  if h : colors = [] then [send_apply_buf channel]
  else
    send_direct_buf channel group (colors.take 20) ::
      sendChannelGroups channel (colors.drop 20) (group + 1)
termination_by colors.length
decreasing_by
  simp only [List.length_drop]
  have : colors.length ≠ 0 := fun hn => h (List.length_eq_zero.mp hn)
  omega

/-- Embeds set_channel_leds from src/controller.rs: the report trace for
one channel, starting at group index 0. -/
def set_channel_leds (channel : Nat) (colors : List Color) :
    List (List Nat) :=
  sendChannelGroups channel colors 0

/-! ## controller.rs: capability registry -/

/-- Embeds the entry list handed to HashMap::from_iter in
known_controllers in src/controller.rs, in source order. All keys are
distinct, so the map holds exactly these associations. -/
def known_controllers_list : List (Nat × String × Nat × Nat) :=
  [ (0x2009, ("NZXT RGB & Fan Controller", 2, 3)),
    (0x2010, ("NZXT RGB & Fan Controller", 2, 3)),
    (0x200E, ("NZXT RGB & Fan Controller", 2, 3)),
    (0x2011, ("NZXT RGB & Fan Controller", 6, 3)),
    (0x2019, ("NZXT RGB & Fan Controller", 6, 3)),
    (0x2020, ("NZXT RGB & Fan Controller", 6, 3)),
    (0x201F, ("NZXT RGB & Fan Controller", 6, 3)),
    (0x2022, ("NZXT RGB & Fan Controller 2024", 6, 3)),
    (0x201B, ("NZXT B650E Motherboard", 6, 3)),
    (0x2001, ("NZXT Hue 2", 4, 0)),
    (0x2002, ("NZXT Hue 2 Ambient", 2, 0)),
    (0x2005, ("NZXT Hue 2 Motherboard", 2, 3)),
    (0x200B, ("NZXT Hue 2 Motherboard", 2, 3)),
    (0x2007, ("NZXT Kraken X3 Series", 3, 0)),
    (0x2014, ("NZXT Kraken X3 Series RGB", 3, 0)),
    (0x3012, ("NZXT Kraken 2024 ELITE Series RGB", 2, 2)),
    (0x2012, ("NZXT RGB Controller", 3, 0)),
    (0x2021, ("NZXT RGB Controller", 3, 0)),
    (0x2006, ("NZXT Smart Device V2", 2, 3)),
    (0x200D, ("NZXT Smart Device V2", 2, 3)),
    (0x200F, ("NZXT Smart Device V2", 2, 3)) ]

/-- Embeds the HashMap lookup `known.get(&product_id)`: an optional
(name, rgb channels, fan channels) triple, no error path. -/
def known_controllers_lookup (product_id : Nat) :
    Option (String × Nat × Nat) :=
  (known_controllers_list.find? (fun e => e.1 = product_id)).map (·.2)

/-! ## main.rs: temperature ramp -/

/-- Embeds `const SCALE: u64 = 1000` from src/main.rs. -/
def SCALE : Nat := 1000

/-- Embeds interpolate from src/main.rs: clamp t to the scale, then blend
each stored byte with integer arithmetic; the `as u8` cast after the
division is the `% 256`. -/
def interpolate (a b : Color) (t : Nat) : Color :=
  let t := min t SCALE
  ⟨(a.c0 * (SCALE - t) + b.c0 * t) / SCALE % 256,
   (a.c1 * (SCALE - t) + b.c1 * t) / SCALE % 256,
   (a.c2 * (SCALE - t) + b.c2 * t) / SCALE % 256⟩

/-- Embeds the breakpoint table `ramp` from CmdCpuTemp::run. -/
def ramp : List (Nat × Color) :=
  [ (0, Color.new 0x07 0x05 0x02),
    (250, Color.new 0x1B 0x2E 0x04),
    (600, Color.new 0x39 0x20 0x02),
    (700, Color.new 0x79 0x09 0x00),
    (900, Color.new 0xff 0x00 0x00) ]

/-- Embeds the breakpoint walk in CmdCpuTemp::run: scan the table, keeping
the last breakpoint whose threshold the normalized temperature reaches;
on the first higher threshold compute the fractional position toward it
and stop. Returns the active pair and the optional (t, next color). -/
def rampWalk (normalized : Nat) :
    (Nat × Color) → List (Nat × Color) → ((Nat × Color) × Option (Nat × Color))
  | color, [] => (color, none)
  | color, (threshold, ramp_color) :: rest =>
    if normalized ≥ threshold then
      rampWalk normalized (threshold, ramp_color) rest
    else
      let t := (normalized - color.1) * SCALE / (threshold - color.1)
      (color, some (t, ramp_color))

/-- Embeds one iteration's temperature-to-color computation from
CmdCpuTemp::run (src/main.rs lines 181-203): clamp the raw millidegree
reading into [base, warn] scaled, normalize, walk the ramp, and
interpolate when a next breakpoint was found. -/
def tempToColor (base warn raw : Nat) : Color :=
  let temp := min (max raw (base * SCALE)) (warn * SCALE)
  let normalized := (temp - base * SCALE) / (warn - base)
  let walk := rampWalk normalized (ramp.headD (0, Color.new 0 0 0)) ramp
  match walk.2 with
  | none => walk.1.2
  | some (t, next_color) => interpolate walk.1.2 next_color t

/-! ## lib.rs: discovery, and the error flow of controller construction

The raw HID transport is an external collaborator, so device handles are
modelled by scripted operation results: the open outcome, the probe write
outcome, and the sequence of probe read outcomes. An exhausted read script
means the source's unbounded read loop would still be blocking, which the
model reports as `none`. -/

/-- Embeds `pub const NZXT_VID: u16 = 0x1E71` from src/lib.rs. -/
def NZXT_VID : Nat := 0x1E71

/-- A device as seen through the HID transport: identity plus scripted
outcomes for open, the probe write, and successive probe reads (return
value and 64-byte buffer). -/
structure DeviceSim where
  vendorId : Nat
  productId : Nat
  openResult : Except String Unit
  probeWrite : Except String Unit
  probeReads : List (Except String (Nat × (Nat → Nat)))

/-- Embeds the read loop of get_channels_info: read until a 64-byte report
with bytes 0x21, 0x03 arrives; a read error propagates; an exhausted
script means the loop is still waiting. -/
def probeReadLoop :
    List (Except String (Nat × (Nat → Nat))) →
      Option (Except String (Nat → Nat))
  | [] => none
  | r :: rest =>
    match r with
    | Except.error e => some (Except.error e)
    | Except.ok (ret_val, buf) =>
      if ret_val = 64 ∧ buf 0 = 0x21 ∧ buf 1 = 0x03 then some (Except.ok buf)
      else probeReadLoop rest

/-- Embeds the error flow of get_channels_info from src/controller.rs:
the probe write error propagates, then a read error propagates, otherwise
the matched buffer is parsed by the topology prober. -/
def get_channels_info_sim (d : DeviceSim) (rgb_channels : Nat) :
    Option (Except String (List RgbChannel)) :=
  match d.probeWrite with
  | Except.error e => some (Except.error e)
  | Except.ok _ =>
    match probeReadLoop d.probeReads with
    | none => none
    | some (Except.error e) => some (Except.error e)
    | some (Except.ok buf) =>
      some (Except.ok (get_channels_info buf rgb_channels))

/-- The constructed controller state: NZXTHue2Controller minus the live
handle. -/
structure ControllerSim where
  productId : Nat
  name : String
  rgb_channels : List RgbChannel
  deriving DecidableEq

/-- Embeds NZXTHue2Controller::new from src/controller.rs: the open error
propagates via ?, then the probe error propagates via ?. -/
def controller_new_sim (d : DeviceSim) (name : String) (rgb_channels : Nat) :
    Option (Except String ControllerSim) :=
  match d.openResult with
  | Except.error e => some (Except.error e)
  | Except.ok _ =>
    match get_channels_info_sim d rgb_channels with
    | none => none
    | some (Except.error e) => some (Except.error e)
    | some (Except.ok chs) => some (Except.ok ⟨d.productId, name, chs⟩)

/-- Embeds find_controllers from src/lib.rs: skip foreign vendors and
unknown products, and on a construction error log at debug level and
continue with the next device — the error is not returned. -/
def find_controllers_sim : List DeviceSim → Option (List ControllerSim)
  | [] => some []
  | d :: rest =>
    if d.vendorId ≠ NZXT_VID then find_controllers_sim rest
    else
      match known_controllers_lookup d.productId with
      | none => find_controllers_sim rest
      | some (name, rgb_channels, _fan_channels) =>
        match controller_new_sim d name rgb_channels with
        | none => none
        | some (Except.error _) => find_controllers_sim rest
        | some (Except.ok c) => (find_controllers_sim rest).map (c :: ·)

/-! ## controller.rs: error flow of set_fixed_color

Each report write consumes the next scripted outcome; an exhausted script
stands for a device whose remaining writes succeed. -/

/-- Next scripted write outcome; successes once the script is exhausted. -/
def popWrite (s : List (Except String Unit)) :
    Except String Unit × List (Except String Unit) :=
  match s with
  | [] => (Except.ok (), [])
  | r :: rest => (r, rest)

/-- Perform k report writes in sequence, stopping at the first error. -/
def sendN : Nat → List (Except String Unit) →
    Except String Unit × List (Except String Unit)
  | 0, s => (Except.ok (), s)
  | k + 1, s =>
    match popWrite s with
    | (Except.error e, s1) => (Except.error e, s1)
    | (Except.ok _, s1) => sendN k s1

/-- Number of reports set_channel_leds writes for a channel of n LEDs:
the direct groups of at most 20 colors, plus the apply report. The report
trace theorem for set_channel_leds establishes this same count. -/
def reportsFor (n : Nat) : Nat := (n + 19) / 20 + 1

/-- Error flow of set_channel_leds for one channel of n LEDs. -/
def set_channel_leds_sim (n : Nat) (s : List (Except String Unit)) :
    Except String Unit × List (Except String Unit) :=
  sendN (reportsFor n) s

/-- Embeds the error flow of set_fixed_color from src/controller.rs:
channels are processed in order, each resized color buffer has the
channel's LED count, and the first failing channel's error aborts the
rest via ?. -/
def set_fixed_color_sim : List Nat → List (Except String Unit) →
    Except String Unit × List (Except String Unit)
  | [], s => (Except.ok (), s)
  | n :: ns, s =>
    match set_channel_leds_sim n s with
    | (Except.error e, s1) => (Except.error e, s1)
    | (Except.ok _, s1) => set_fixed_color_sim ns s1

/-! ## main.rs: event order of CmdCpuTemp::run

The events of one run, for claims about when errors are reported relative
to device input/output. File and device operations are abstracted to
events; the discovery segment stands for find_controllers opening and
probing each responsive NZXT device. -/

/-- Observable operations of CmdCpuTemp::run. -/
inductive Event where
  | fileOpen | fileRead | devOpen | devWrite | devRead
  deriving DecidableEq, Repr

/-- Value of one decimal digit character. -/
def decDigitVal? (ch : Char) : Option Nat :=
  if '0' ≤ ch ∧ ch ≤ '9' then some (ch.toNat - 48) else none

/-- Accumulating decimal evaluation; none on an invalid character. -/
def decVal : List Char → Nat → Option Nat
  | [], acc => some acc
  | ch :: rest, acc =>
    match decDigitVal? ch with
    | none => none
    | some d => decVal rest (acc * 10 + d)

/-- Embeds `str::trim` followed by `str::parse::<u64>` from the polling
loop of CmdCpuTemp::run: trim whitespace, optional leading plus sign, a
nonempty digit string, result under 2^64. -/
def parse_u64 (s : List Char) : Option Nat :=
  let s1 := (((s.dropWhile Char.isWhitespace).reverse).dropWhile
    Char.isWhitespace).reverse
  let v := match s1 with
    | [] => none
    | c :: rest =>
      if c = '+' then (if rest = [] then none else decVal rest 0)
      else decVal (c :: rest) 0
  match v with
  | none => none
  | some n => if n < 2 ^ 64 then some n else none

/-- Environment of one cpu-temp run: whether the hwmon file opens, its
contents on each read, and how many known NZXT devices discovery finds. -/
structure CpuTempEnv where
  fileReadable : Bool
  fileContent : List Char
  deviceCount : Nat

/-- The polling loop of CmdCpuTemp::run, fuel-bounded: each iteration
reads the sensor file, parses it (a parse failure is a fatal error ending
the run), and otherwise applies the computed color to every controller. -/
def cpuTempLoop (env : CpuTempEnv) : Nat → List Event × Bool
  | 0 => ([], false)
  | fuel + 1 =>
    match parse_u64 env.fileContent with
    | none => ([Event.fileRead], true)
    | some _ =>
      let writes := List.replicate env.deviceCount Event.devWrite
      let next := cpuTempLoop env fuel
      (Event.fileRead :: writes ++ next.1, next.2)

/-- Embeds the event order of CmdCpuTemp::run from src/main.rs: the
base < warn guard runs first, then the hwmon file open, then device
discovery (open, probe write, probe read per device), then the polling
loop. The boolean records whether the run ended with a fatal error. -/
def cpuTempRun (base warn : Nat) (env : CpuTempEnv) (fuel : Nat) :
    List Event × Bool :=
  if ¬ base < warn then ([], true)
  else if env.fileReadable = false then ([Event.fileOpen], true)
  else
    let discovery := (List.replicate env.deviceCount
      [Event.devOpen, Event.devWrite, Event.devRead]).flatten
    let next := cpuTempLoop env fuel
    (Event.fileOpen :: discovery ++ next.1, next.2)

/-- The device input/output events. -/
def Event.isDev : Event → Bool
  | .devOpen | .devWrite | .devRead => true
  | _ => false

/-! ## Helper lemmas on list access -/

lemma getD_set_ne {α : Type} [Inhabited α] (l : List α) (i j : Nat) (v : α)
    (h : i ≠ j) : (l.set i v).getD j default = l.getD j default := by
  simp [List.getD, List.getElem?_set_ne h]

lemma getD_set_self {α : Type} [Inhabited α] (l : List α) (i : Nat) (v : α)
    (h : i < l.length) : (l.set i v).getD i default = v := by
  simp [List.getD, List.getElem?_set_self, h]

lemma getD_map_range {α : Type} [Inhabited α] (n c : Nat) (f : Nat → α)
    (h : c < n) : ((List.range n).map f).getD c default = f c := by
  simp [List.getD, List.getElem?_map, List.getElem?_range h]

/-! ## Claim C4: color accessors, text form and wire order -/

/-- C4: for all 8-bit r, g, b, the color built from (r, g, b) answers red,
green and blue through the canonical accessors, serializes on the wire as
the (g, r, b) byte triple, and its text form is the hash sign followed by
red, green, blue in hex — the GRB reorder is invisible to accessors and
text. -/
theorem color_new_accessors_wire_text (r g b : Nat)
    (hr : r < 256) (hg : g < 256) (hb : b < 256) :
    (Color.new r g b).red = r ∧ (Color.new r g b).green = g ∧
    (Color.new r g b).blue = b ∧
    Color.wrapSlice [Color.new r g b] = [g, r, b] ∧
    (Color.new r g b).displayChars = '#' :: (hex2 r ++ hex2 g ++ hex2 b) := by
  refine ⟨rfl, rfl, rfl, ?_, rfl⟩
  simp [Color.wrapSlice, Color.new, Color.inner]

/-- Witness for C4 at (r, g, b) = (17, 34, 51). -/
theorem color_new_accessors_wire_text_witness :
    (Color.new 17 34 51).red = 17 ∧ (Color.new 17 34 51).green = 34 ∧
    (Color.new 17 34 51).blue = 51 ∧
    Color.wrapSlice [Color.new 17 34 51] = [34, 17, 51] ∧
    (Color.new 17 34 51).displayChars = '#' :: (hex2 17 ++ hex2 34 ++ hex2 51) :=
  color_new_accessors_wire_text 17 34 51 (by decide) (by decide) (by decide)

/-! ## Claim C5: capability registry -/

/-- C5 counterexample: the capability table of known_controllers holds 21
distinct product identifiers, not twenty. -/
theorem known_controllers_not_twenty :
    known_controllers_list.length ≠ 20 ∧
    known_controllers_list.length = 21 ∧
    (known_controllers_list.map Prod.fst).Nodup := by
  refine ⟨by decide, by decide, by decide⟩

/-- C5 amended: the capability registry is a total lookup from a product
identifier to an optional (name, rgb channels, fan channels) triple with no
error path, and its backing table holds exactly twenty-one distinct
entries. -/
theorem known_controllers_registry :
    (∀ product_id : Nat, (known_controllers_lookup product_id).isSome ↔
      product_id ∈ known_controllers_list.map Prod.fst) ∧
    (known_controllers_list.map Prod.fst).Nodup ∧
    known_controllers_list.length = 21 := by
  refine ⟨fun product_id => ?_, by decide, by decide⟩
  have h1 : (known_controllers_lookup product_id).isSome
      = (known_controllers_list.find? (fun e => e.1 = product_id)).isSome := by
    rw [known_controllers_lookup]
    cases known_controllers_list.find? (fun e => e.1 = product_id) <;> rfl
  rw [h1, List.find?_isSome]
  simp only [List.mem_map, decide_eq_true_eq]

/-! ## Claims C6 and C10: temperature ramp interpolation -/

lemma interp_channel_bounds (x y t : Nat) (hx : x < 256) (hy : y < 256) :
    x * (SCALE - min t SCALE) + y * min t SCALE < 2 ^ 64 ∧
    (x * (SCALE - min t SCALE) + y * min t SCALE) / SCALE % 256
      = (x * (SCALE - min t SCALE) + y * min t SCALE) / SCALE ∧
    min x y ≤ (x * (SCALE - min t SCALE) + y * min t SCALE) / SCALE ∧
    (x * (SCALE - min t SCALE) + y * min t SCALE) / SCALE ≤ max x y := by
  have hu : min t SCALE ≤ 1000 := by simp [SCALE]
  have h1 : x * (SCALE - min t SCALE) ≤ 255 * (SCALE - min t SCALE) :=
    Nat.mul_le_mul_right _ (by omega)
  have h2 : y * min t SCALE ≤ 255 * min t SCALE :=
    Nat.mul_le_mul_right _ (by omega)
  have hup : x * (SCALE - min t SCALE) + y * min t SCALE ≤ max x y * SCALE := by
    have hx1 : x * (SCALE - min t SCALE) ≤ max x y * (SCALE - min t SCALE) :=
      Nat.mul_le_mul_right _ (Nat.le_max_left x y)
    have hy1 : y * min t SCALE ≤ max x y * min t SCALE :=
      Nat.mul_le_mul_right _ (Nat.le_max_right x y)
    have : max x y * (SCALE - min t SCALE) + max x y * min t SCALE
        = max x y * SCALE := by
      rw [← Nat.mul_add]
      congr 1
      omega
    omega
  have hlo : min x y * SCALE ≤ x * (SCALE - min t SCALE) + y * min t SCALE := by
    have hx1 : min x y * (SCALE - min t SCALE) ≤ x * (SCALE - min t SCALE) :=
      Nat.mul_le_mul_right _ (Nat.min_le_left x y)
    have hy1 : min x y * min t SCALE ≤ y * min t SCALE :=
      Nat.mul_le_mul_right _ (Nat.min_le_right x y)
    have : min x y * (SCALE - min t SCALE) + min x y * min t SCALE
        = min x y * SCALE := by
      rw [← Nat.mul_add]
      congr 1
      omega
    omega
  have hdivup : (x * (SCALE - min t SCALE) + y * min t SCALE) / SCALE ≤ max x y := by
    have := Nat.div_le_div_right (c := SCALE) hup
    rwa [Nat.mul_div_cancel _ (by simp [SCALE])] at this
  have hdivlo : min x y ≤ (x * (SCALE - min t SCALE) + y * min t SCALE) / SCALE := by
    rw [Nat.le_div_iff_mul_le (by simp [SCALE])]
    exact hlo
  refine ⟨by simp [SCALE] at h1 h2 ⊢; omega, ?_, hdivlo, hdivup⟩
  have : (x * (SCALE - min t SCALE) + y * min t SCALE) / SCALE < 256 := by
    omega
  exact Nat.mod_eq_of_lt this

/-- C6: for the 1000-unit scale, interpolating at t = 0 returns the left
color exactly; any raw reading at or above the warn threshold yields the
final breakpoint color (255, 0, 0); and at t = 500 each output channel is
the integer-divided mean (a * 500 + b * 500) / 1000 of the endpoints. -/
theorem ramp_boundary_values :
    (∀ a b : Color, a.wf → interpolate a b 0 = a) ∧
    (∀ base warn raw : Nat, base < warn → warn * SCALE ≤ raw →
      tempToColor base warn raw = Color.new 255 0 0) ∧
    (∀ a b : Color, a.wf → b.wf →
      (interpolate a b 500).red = (a.red * 500 + b.red * 500) / 1000 ∧
      (interpolate a b 500).green = (a.green * 500 + b.green * 500) / 1000 ∧
      (interpolate a b 500).blue = (a.blue * 500 + b.blue * 500) / 1000) := by
  have key0 : ∀ x y : Nat, x < 256 →
      (x * (SCALE - min 0 SCALE) + y * min 0 SCALE) / SCALE % 256 = x := by
    intro x y hx
    have h1 : min 0 SCALE = 0 := by simp
    rw [h1, Nat.mul_zero, Nat.add_zero, Nat.sub_zero,
      Nat.mul_div_cancel _ (by simp [SCALE] : 0 < SCALE)]
    exact Nat.mod_eq_of_lt hx
  have key500 : ∀ x y : Nat, x < 256 → y < 256 →
      (x * (SCALE - min 500 SCALE) + y * min 500 SCALE) / SCALE % 256
        = (x * 500 + y * 500) / 1000 := by
    intro x y hx hy
    have h1 : min 500 SCALE = 500 := by simp [SCALE]
    have h2 : SCALE - 500 = 500 := by simp [SCALE]
    rw [h1, h2]
    simp only [SCALE]
    omega
  refine ⟨?_, ?_, ?_⟩
  · rintro ⟨a0, a1, a2⟩ b ⟨h0, h1, h2⟩
    simp only [interpolate, Color.mk.injEq]
    exact ⟨key0 _ _ h0, key0 _ _ h1, key0 _ _ h2⟩
  · intro base warn raw h1 h2
    simp only [tempToColor]
    have h3 : min (max raw (base * SCALE)) (warn * SCALE) = warn * SCALE := by
      simp only [SCALE] at h2 ⊢
      omega
    rw [h3]
    have h4 : (warn * SCALE - base * SCALE) / (warn - base) = 1000 := by
      have h5 : warn * SCALE - base * SCALE = (warn - base) * SCALE := by
        simp only [SCALE]
        have := Nat.sub_mul warn base 1000
        omega
      rw [h5, Nat.mul_div_cancel_left _ (by omega)]
      simp [SCALE]
    rw [h4]
    decide
  · rintro ⟨a0, a1, a2⟩ ⟨b0, b1, b2⟩ ⟨ha0, ha1, ha2⟩ ⟨hb0, hb1, hb2⟩
    simp only [interpolate, Color.red, Color.green, Color.blue]
    exact ⟨key500 _ _ ha1 hb1, key500 _ _ ha0 hb0, key500 _ _ ha2 hb2⟩

/-- Witness for C6: part one at concrete colors, part two at
(base, warn, raw) = (0, 80, 80000), part three at concrete colors. -/
theorem ramp_boundary_values_witness :
    interpolate (Color.new 7 5 2) (Color.new 27 46 4) 0 = Color.new 7 5 2 ∧
    tempToColor 0 80 80000 = Color.new 255 0 0 ∧
    (interpolate (Color.new 0 0 0) (Color.new 255 255 255) 500).red
      = ((Color.new 0 0 0).red * 500 + (Color.new 255 255 255).red * 500) / 1000 :=
  ⟨ramp_boundary_values.1 (Color.new 7 5 2) (Color.new 27 46 4) (by decide),
   ramp_boundary_values.2.1 0 80 80000 (by decide) (by decide),
   (ramp_boundary_values.2.2 (Color.new 0 0 0) (Color.new 255 255 255)
     (by decide) (by decide)).1⟩

/-- C10: interpolate first clamps t to the scale, its intermediate u64
arithmetic cannot overflow, each output channel stays between the
corresponding channels of the endpoints, and the final u8 cast of the
quotient never truncates (the stored byte is exactly the quotient). -/
theorem interpolate_safety (a b : Color) (t : Nat) (ha : a.wf) (hb : b.wf) :
    interpolate a b t = interpolate a b (min t 1000) ∧
    (a.c0 * (SCALE - min t SCALE) + b.c0 * min t SCALE < 2 ^ 64 ∧
     a.c1 * (SCALE - min t SCALE) + b.c1 * min t SCALE < 2 ^ 64 ∧
     a.c2 * (SCALE - min t SCALE) + b.c2 * min t SCALE < 2 ^ 64) ∧
    ((interpolate a b t).c0 = (a.c0 * (SCALE - min t SCALE) + b.c0 * min t SCALE) / SCALE ∧
     (interpolate a b t).c1 = (a.c1 * (SCALE - min t SCALE) + b.c1 * min t SCALE) / SCALE ∧
     (interpolate a b t).c2 = (a.c2 * (SCALE - min t SCALE) + b.c2 * min t SCALE) / SCALE) ∧
    (min a.red b.red ≤ (interpolate a b t).red ∧
     (interpolate a b t).red ≤ max a.red b.red ∧
     min a.green b.green ≤ (interpolate a b t).green ∧
     (interpolate a b t).green ≤ max a.green b.green ∧
     min a.blue b.blue ≤ (interpolate a b t).blue ∧
     (interpolate a b t).blue ≤ max a.blue b.blue) := by
  obtain ⟨ha0, ha1, ha2⟩ := ha
  obtain ⟨hb0, hb1, hb2⟩ := hb
  have e0 := interp_channel_bounds a.c0 b.c0 t ha0 hb0
  have e1 := interp_channel_bounds a.c1 b.c1 t ha1 hb1
  have e2 := interp_channel_bounds a.c2 b.c2 t ha2 hb2
  have hclamp : interpolate a b t = interpolate a b (min t 1000) := by
    simp only [interpolate, SCALE]
    rw [Nat.min_assoc]
    simp
  have hch : ∀ x y : Nat, x < 256 → y < 256 →
      (x * (SCALE - min t SCALE) + y * min t SCALE) / SCALE % 256
        = (x * (SCALE - min t SCALE) + y * min t SCALE) / SCALE :=
    fun x y hx hy => (interp_channel_bounds x y t hx hy).2.1
  refine ⟨hclamp, ⟨e0.1, e1.1, e2.1⟩, ?_, ?_⟩
  · simp only [interpolate]
    exact ⟨hch a.c0 b.c0 ha0 hb0, hch a.c1 b.c1 ha1 hb1, hch a.c2 b.c2 ha2 hb2⟩
  · simp only [interpolate, Color.red, Color.green, Color.blue]
    rw [hch a.c0 b.c0 ha0 hb0, hch a.c1 b.c1 ha1 hb1, hch a.c2 b.c2 ha2 hb2]
    exact ⟨e1.2.2.1, e1.2.2.2, e0.2.2.1, e0.2.2.2, e2.2.2.1, e2.2.2.2⟩

/-- Witness for C10 at concrete colors and unclamped t = 5000. -/
theorem interpolate_safety_witness :
    (Color.new 10 20 30).wf ∧ (Color.new 200 100 50).wf ∧
    interpolate (Color.new 10 20 30) (Color.new 200 100 50) 5000
      = interpolate (Color.new 10 20 30) (Color.new 200 100 50) (min 5000 1000) :=
  ⟨by decide, by decide,
   (interpolate_safety (Color.new 10 20 30) (Color.new 200 100 50) 5000
     (by decide) (by decide)).1⟩

/-! ## Claim C7: color text round-trip -/

/-- Uppercase hex digit of a 4-bit value, used to exercise the parser's
case-insensitivity. -/
def hexDigitCharUpper (n : Nat) : Char :=
  match n with
  | 0 => '0' | 1 => '1' | 2 => '2' | 3 => '3' | 4 => '4'
  | 5 => '5' | 6 => '6' | 7 => '7' | 8 => '8' | 9 => '9'
  | 10 => 'A' | 11 => 'B' | 12 => 'C' | 13 => 'D' | 14 => 'E' | 15 => 'F'
  | _ => '*'

/-- Two uppercase hex digits of a byte. -/
def hex2U (n : Nat) : List Char :=
  [hexDigitCharUpper (n / 16 % 16), hexDigitCharUpper (n % 16)]

/-- A digit-rendering function whose output the parser decodes back and
which collides with neither the hash sign nor the plus sign. -/
def GoodDigits (dig : Nat → Char) : Prop :=
  ∀ d, d < 16 → hexDigitVal? (dig d) = some d ∧ dig d ≠ '+' ∧ dig d ≠ '#'

lemma goodDigits_lower : GoodDigits hexDigitChar := by
  intro d hd
  interval_cases d <;> exact ⟨by decide, by decide, by decide⟩

lemma goodDigits_upper : GoodDigits hexDigitCharUpper := by
  intro d hd
  interval_cases d <;> exact ⟨by decide, by decide, by decide⟩

lemma hexVal_cons (ch : Char) (rest : List Char) (acc d : Nat)
    (h : hexDigitVal? ch = some d) :
    hexVal (ch :: rest) acc = hexVal rest (acc * 16 + d) := by
  simp [hexVal, h]

lemma hexVal_trimZeros (s : List Char) :
    hexVal (orZero (s.dropWhile (fun c => c = '0'))) 0 = hexVal s 0 := by
  induction s with
  | nil => decide
  | cons c cs ih =>
    by_cases hc : c = '0'
    · subst hc
      rw [List.dropWhile_cons]
      simp only [decide_True, if_true]
      rw [hexVal_cons '0' cs 0 0 (by decide)]
      simpa using ih
    · rw [List.dropWhile_cons]
      simp [hc, orZero]

lemma fromStrRadix16_eval (c : Char) (cs : List Char) (v : Nat)
    (hplus : c ≠ '+') (hv : hexVal (c :: cs) 0 = some v)
    (hsmall : v < 2 ^ 32) : fromStrRadix16 (c :: cs) = some v := by
  simp only [fromStrRadix16, if_neg hplus, hv]
  exact if_pos hsmall

/-- Parsing the six digits of r, g, b rendered through any good digit
function recovers the color. -/
lemma parseHex6_digits (dig : Nat → Char) (hdig : GoodDigits dig)
    (r g b : Nat) (hr : r < 256) (hg : g < 256) (hb : b < 256) :
    parseHex6 [dig (r / 16 % 16), dig (r % 16), dig (g / 16 % 16),
      dig (g % 16), dig (b / 16 % 16), dig (b % 16)] = some (Color.new r g b) := by
  set L : List Char := [dig (r / 16 % 16), dig (r % 16), dig (g / 16 % 16),
    dig (g % 16), dig (b / 16 % 16), dig (b % 16)] with hL
  have hmem : ∀ x ∈ L, ∃ d, d < 16 ∧ x = dig d := by
    intro x hx
    simp only [hL, List.mem_cons, List.not_mem_nil, or_false] at hx
    rcases hx with h | h | h | h | h | h <;>
      exact ⟨_, by omega, h⟩
  have hval : hexVal L 0 = some (r * 65536 + g * 256 + b) := by
    rw [hL,
      hexVal_cons _ _ _ _ (hdig (r / 16 % 16) (by omega)).1,
      hexVal_cons _ _ _ _ (hdig (r % 16) (by omega)).1,
      hexVal_cons _ _ _ _ (hdig (g / 16 % 16) (by omega)).1,
      hexVal_cons _ _ _ _ (hdig (g % 16) (by omega)).1,
      hexVal_cons _ _ _ _ (hdig (b / 16 % 16) (by omega)).1,
      hexVal_cons _ _ _ _ (hdig (b % 16) (by omega)).1]
    simp only [hexVal]
    congr 1
    omega
  have hlen : L.length = 6 := by simp [hL]
  rw [parseHex6]
  rw [if_neg (by omega : ¬ L.length ≠ 6)]
  have hs3val : hexVal (orZero (L.dropWhile (fun c => c = '0'))) 0
      = some (r * 65536 + g * 256 + b) := by
    rw [hexVal_trimZeros, hval]
  have hs3ne : orZero (L.dropWhile (fun c => c = '0')) ≠ [] := by
    rw [orZero]
    by_cases h : L.dropWhile (fun c => c = '0') = [] <;> simp [h]
  have hs3chars : ∀ x ∈ orZero (L.dropWhile (fun c => c = '0')), x ≠ '+' := by
    intro x hx
    rw [orZero] at hx
    by_cases h : L.dropWhile (fun c => c = '0') = []
    · rw [if_pos h] at hx
      simp at hx
      subst hx
      decide
    · rw [if_neg h] at hx
      have : x ∈ L := (List.dropWhile_sublist _).subset hx
      obtain ⟨d, hd, rfl⟩ := hmem x this
      exact (hdig d hd).2.1
  obtain ⟨c, cs, hcons⟩ := List.exists_cons_of_ne_nil hs3ne
  rw [hcons] at hs3val ⊢
  rw [fromStrRadix16_eval c cs _
    (hs3chars c (by rw [hcons]; exact List.mem_cons_self c cs)) hs3val
    (by omega : r * 65536 + g * 256 + b < 2 ^ 32)]
  simp only [Option.some.injEq]
  rw [Color.new]
  simp only [Color.mk.injEq]
  refine ⟨by omega, by omega, by omega⟩

lemma stripHash_short (s : List Char) (h : s.length < 6) :
    (stripHash s).length ≠ 6 := by
  match s with
  | [] => simp [stripHash]
  | c :: rest =>
    rw [stripHash]
    by_cases hc : c = '#'
    · rw [if_pos hc]
      simp at h ⊢
      omega
    · rw [if_neg hc]
      simp at h ⊢
      omega

/-- C7: parsing the printed text of any color reproduces its three stored
channel bytes, with or without the leading hash sign; parsing is
case-insensitive (the uppercase rendering parses to the same color); and
inputs shorter than six digits are rejected. -/
theorem color_text_roundtrip :
    (∀ c : Color, c.wf → color_from_str c.displayChars = some c) ∧
    (∀ c : Color, c.wf →
      color_from_str (hex2 c.red ++ hex2 c.green ++ hex2 c.blue) = some c) ∧
    (∀ c : Color, c.wf →
      color_from_str ('#' :: (hex2U c.red ++ hex2U c.green ++ hex2U c.blue))
        = some c ∧
      color_from_str (hex2U c.red ++ hex2U c.green ++ hex2U c.blue) = some c) ∧
    (∀ s : List Char, s.length < 6 → color_from_str s = none) := by
  have hback : ∀ c : Color, Color.new c.red c.green c.blue = c := by
    rintro ⟨c0, c1, c2⟩
    rfl
  have core : ∀ (dig : Nat → Char), GoodDigits dig → ∀ c : Color, c.wf →
      parseHex6 [dig (c.red / 16 % 16), dig (c.red % 16), dig (c.green / 16 % 16),
        dig (c.green % 16), dig (c.blue / 16 % 16), dig (c.blue % 16)] = some c := by
    intro dig hdig c hc
    rw [parseHex6_digits dig hdig c.red c.green c.blue hc.2.1 hc.1 hc.2.2, hback]
  have nohash : ∀ (dig : Nat → Char), GoodDigits dig → ∀ c : Color, c.wf →
      color_from_str [dig (c.red / 16 % 16), dig (c.red % 16), dig (c.green / 16 % 16),
        dig (c.green % 16), dig (c.blue / 16 % 16), dig (c.blue % 16)] = some c := by
    intro dig hdig c hc
    rw [color_from_str, stripHash,
      if_neg (hdig (c.red / 16 % 16) (by omega)).2.2]
    exact core dig hdig c hc
  have withhash : ∀ (dig : Nat → Char), GoodDigits dig → ∀ c : Color, c.wf →
      color_from_str ('#' :: [dig (c.red / 16 % 16), dig (c.red % 16),
        dig (c.green / 16 % 16), dig (c.green % 16), dig (c.blue / 16 % 16),
        dig (c.blue % 16)]) = some c := by
    intro dig hdig c hc
    rw [color_from_str, stripHash, if_pos rfl]
    exact core dig hdig c hc
  refine ⟨?_, ?_, ?_, ?_⟩
  · intro c hc
    have h1 : c.displayChars = '#' :: [hexDigitChar (c.red / 16 % 16),
        hexDigitChar (c.red % 16), hexDigitChar (c.green / 16 % 16),
        hexDigitChar (c.green % 16), hexDigitChar (c.blue / 16 % 16),
        hexDigitChar (c.blue % 16)] := by
      simp [Color.displayChars, hex2]
    rw [h1]
    exact withhash hexDigitChar goodDigits_lower c hc
  · intro c hc
    have h1 : hex2 c.red ++ hex2 c.green ++ hex2 c.blue
        = [hexDigitChar (c.red / 16 % 16), hexDigitChar (c.red % 16),
           hexDigitChar (c.green / 16 % 16), hexDigitChar (c.green % 16),
           hexDigitChar (c.blue / 16 % 16), hexDigitChar (c.blue % 16)] := by
      simp [hex2]
    rw [h1]
    exact nohash hexDigitChar goodDigits_lower c hc
  · intro c hc
    have h1 : hex2U c.red ++ hex2U c.green ++ hex2U c.blue
        = [hexDigitCharUpper (c.red / 16 % 16), hexDigitCharUpper (c.red % 16),
           hexDigitCharUpper (c.green / 16 % 16), hexDigitCharUpper (c.green % 16),
           hexDigitCharUpper (c.blue / 16 % 16), hexDigitCharUpper (c.blue % 16)] := by
      simp [hex2U]
    rw [h1]
    exact ⟨withhash hexDigitCharUpper goodDigits_upper c hc,
      nohash hexDigitCharUpper goodDigits_upper c hc⟩
  · intro s hs
    rw [color_from_str, parseHex6, if_pos (stripHash_short s hs)]

/-- Witness for C7 at the color (32, 8, 0). -/
theorem color_text_roundtrip_witness :
    (Color.new 32 8 0).wf ∧
    color_from_str (Color.new 32 8 0).displayChars = some (Color.new 32 8 0) :=
  ⟨by decide, color_text_roundtrip.1 (Color.new 32 8 0) (by decide)⟩

/-! ## Claim C1: topology parsing -/

lemma probeSlotStep_eq (buffer : Nat → Nat) (start : Nat)
    (info : RgbChannel) (dev : Nat) :
    probeSlotStep buffer start info dev =
      if (subDeviceInfo (buffer (start + dev))).1 = 0 then info
      else { led_count := info.led_count + (subDeviceInfo (buffer (start + dev))).1
             devices := info.devices.set dev
               ⟨buffer (start + dev), (subDeviceInfo (buffer (start + dev))).2,
                (subDeviceInfo (buffer (start + dev))).1⟩ } := rfl

lemma probe_foldl_led_count (buffer : Nat → Nat) (start : Nat)
    (init : RgbChannel) (m : Nat) :
    ((List.range m).foldl (probeSlotStep buffer start) init).led_count
      = init.led_count
        + ((List.range m).map (fun d => (subDeviceInfo (buffer (start + d))).1)).sum := by
  induction m with
  | zero => simp
  | succ m ih =>
    rw [List.range_succ, List.foldl_append, List.foldl_cons, List.foldl_nil,
      List.map_append, List.sum_append, probeSlotStep_eq]
    by_cases h : (subDeviceInfo (buffer (start + m))).1 = 0
    · rw [if_pos h, ih]
      simp [h]
    · rw [if_neg h]
      simp only [List.map_cons, List.map_nil, List.sum_cons, List.sum_nil]
      rw [ih]
      omega

lemma probe_foldl_devices_default (buffer : Nat → Nat) (start : Nat)
    (init : RgbChannel) (d : Nat)
    (hd : (subDeviceInfo (buffer (start + d))).1 = 0) (m : Nat) :
    ((List.range m).foldl (probeSlotStep buffer start) init).devices.getD d default
      = init.devices.getD d default := by
  induction m with
  | zero => simp
  | succ m ih =>
    rw [List.range_succ, List.foldl_append, List.foldl_cons, List.foldl_nil,
      probeSlotStep_eq]
    by_cases h : (subDeviceInfo (buffer (start + m))).1 = 0
    · rw [if_pos h]
      exact ih
    · rw [if_neg h]
      have hdm : m ≠ d := fun he => h (he ▸ hd)
      show (((List.range m).foldl (probeSlotStep buffer start) init).devices.set m
        _).getD d default = _
      rw [getD_set_ne _ _ _ _ hdm]
      exact ih

/-- C1: for every probe response buffer and requested channel count, the
topology prober reads the six identifier bytes at offsets 0x0F + 6c .. and
sets the channel's led_count to the sum of the identity table's LED counts
of those bytes (unknown identifiers contribute zero and leave their slot
at the default); identifier 0x13 maps to 18 LEDs and the unused identifier
0x00 to none. -/
theorem topology_probe_parse (buffer : Nat → Nat) (n c : Nat) (hc : c < n) :
    ((get_channels_info buffer n).getD c RgbChannel.default).led_count
      = ((List.range 6).map
          (fun d => (subDeviceInfo (buffer (0x0f + 6 * c + d))).1)).sum ∧
    (∀ d : Nat, (subDeviceInfo (buffer (0x0f + 6 * c + d))).1 = 0 →
      ((get_channels_info buffer n).getD c RgbChannel.default).devices.getD d default
        = default) ∧
    (subDeviceInfo 0x13).1 = 18 ∧ (subDeviceInfo 0x00).1 = 0 := by
  have hget : (get_channels_info buffer n).getD c RgbChannel.default
      = (List.range HUE_2_NUM_CHANNELS).foldl
          (probeSlotStep buffer (0x0f + HUE_2_NUM_CHANNELS * c))
          RgbChannel.default := by
    rw [get_channels_info]
    exact getD_map_range n c _ hc
  rw [hget]
  refine ⟨?_, ?_, by decide, by decide⟩
  · rw [probe_foldl_led_count]
    simp [RgbChannel.default, HUE_2_NUM_CHANNELS]
  · intro d hd
    rw [probe_foldl_devices_default buffer _ _ d (by
      simpa [HUE_2_NUM_CHANNELS] using hd)]
    rcases Nat.lt_or_ge d HUE_2_NUM_CHANNELS with h | h
    · rw [RgbChannel.default]
      show (List.replicate HUE_2_NUM_CHANNELS
        (⟨0, "", 0⟩ : ChannelDeviceInfo)).getD d default = default
      simp [List.getD, List.getElem?_replicate, h]
      rfl
    · rw [RgbChannel.default]
      show (List.replicate HUE_2_NUM_CHANNELS
        (⟨0, "", 0⟩ : ChannelDeviceInfo)).getD d default = default
      rw [List.getD_eq_default]
      simpa using h

/-- Witness for C1: a buffer with identifier 0x13 in channel 0 slot 0 and
zeros elsewhere yields led_count 18 for channel 0 of 2. -/
theorem topology_probe_parse_witness :
    (0 : Nat) < 2 ∧
    ((get_channels_info (fun i => if i = 0x0f then 0x13 else 0) 2).getD 0
      RgbChannel.default).led_count
      = ((List.range 6).map
          (fun d => (subDeviceInfo ((fun i => if i = 0x0f then 0x13 else 0)
            (0x0f + 6 * 0 + d))).1)).sum :=
  ⟨by decide,
   (topology_probe_parse (fun i => if i = 0x0f then 0x13 else 0) 2 0 (by decide)).1⟩

/-! ## Claim C2: frame chunking -/

lemma sendChannelGroups_nil (ch g : Nat) :
    sendChannelGroups ch [] g = [send_apply_buf ch] := by
  rw [sendChannelGroups]
  simp

lemma sendChannelGroups_cons (ch g : Nat) (c : Color) (cs : List Color) :
    sendChannelGroups ch (c :: cs) g =
      send_direct_buf ch g ((c :: cs).take 20) ::
        sendChannelGroups ch ((c :: cs).drop 20) (g + 1) := by
  rw [sendChannelGroups]
  simp

lemma sendChannelGroups_structure (ch : Nat) (n : Nat) :
    ∀ colors : List Color, colors.length = n → ∀ g,
      sendChannelGroups ch colors g =
        (List.range ((n + 19) / 20)).map
          (fun i => send_direct_buf ch (g + i) ((colors.drop (20 * i)).take 20))
          ++ [send_apply_buf ch] := by
  induction n using Nat.strong_induction_on with
  | _ n ih =>
    intro colors hlen g
    match colors with
    | [] =>
      have hn : n = 0 := by simpa using hlen.symm
      subst hn
      rw [sendChannelGroups_nil]
      simp
    | c :: cs =>
      rw [sendChannelGroups_cons]
      have hn : 0 < n := by
        rw [← hlen]
        simp
      have hlen2 : ((c :: cs).drop 20).length = n - 20 := by
        rw [List.length_drop, hlen]
      rw [ih (n - 20) (by omega) _ hlen2 (g + 1)]
      have hk : (n + 19) / 20 = (n - 20 + 19) / 20 + 1 := by omega
      rw [hk, List.range_succ_eq_map, List.map_cons, List.map_map]
      simp only [List.cons_append]
      congr 1
      congr 1
      apply List.map_congr_left
      intro a ha
      simp only [Function.comp_apply]
      have h1 : g + 1 + a = g + (a + 1) := by omega
      have h2 : List.drop (20 * a) (List.drop 20 (c :: cs))
          = List.drop (20 * (a + 1)) (c :: cs) := by
        rw [List.drop_drop]
        congr 1
        omega
      rw [h1, h2]

/-- C2: for every channel and color sequence, the report trace is exactly
the ceil(N/20) direct reports, with group indices 0, 1, 2, ... carrying
the consecutive 20-color chunks, followed by one apply report; every chunk
but the last carries 20 colors, the last carries N mod 20 (or 20 when N is
a nonzero multiple of 20), and an empty sequence yields only the apply
report. -/
theorem frame_chunking (ch : Nat) (colors : List Color) :
    set_channel_leds ch colors =
      (List.range ((colors.length + 19) / 20)).map
        (fun g => send_direct_buf ch g ((colors.drop (20 * g)).take 20))
        ++ [send_apply_buf ch] ∧
    (colors.length = 0 → set_channel_leds ch colors = [send_apply_buf ch]) ∧
    (∀ g : Nat, g + 1 < (colors.length + 19) / 20 →
      ((colors.drop (20 * g)).take 20).length = 20) ∧
    (colors.length ≠ 0 →
      ((colors.drop (20 * ((colors.length + 19) / 20 - 1))).take 20).length
        = if colors.length % 20 = 0 then 20 else colors.length % 20) := by
  refine ⟨?_, ?_, ?_, ?_⟩
  · rw [set_channel_leds,
      sendChannelGroups_structure ch colors.length colors rfl 0]
    congr 1
    apply List.map_congr_left
    intro i hi
    congr 1
    omega
  · intro h
    rw [set_channel_leds, List.length_eq_zero.mp h, sendChannelGroups_nil]
  · intro g hg
    rw [List.length_take, List.length_drop]
    omega
  · intro h
    rw [List.length_take, List.length_drop]
    by_cases h20 : colors.length % 20 = 0
    · rw [if_pos h20]
      omega
    · rw [if_neg h20]
      omega

/-- Witness for C2: the empty color sequence yields only the apply report. -/
theorem frame_chunking_witness :
    ([] : List Color).length = 0 ∧ set_channel_leds 3 [] = [send_apply_buf 3] :=
  ⟨rfl, (frame_chunking 3 []).2.1 rfl⟩

/-! ## Claim C3: report byte layout -/

lemma getD_set_nat (l : List Nat) (i j v : Nat) (hi : i < l.length) :
    (l.set i v).getD j 0 = if i = j then v else l.getD j 0 := by
  by_cases h : i = j
  · subst h
    rw [if_pos rfl]
    exact getD_set_self l i v hi
  · rw [if_neg h]
    exact getD_set_ne l i j v h

lemma getD_replicate_zero (n i : Nat) :
    (List.replicate n (0 : Nat)).getD i 0 = 0 := by
  rcases Nat.lt_or_ge i n with h | h
  · simp [List.getD, List.getElem?_replicate, h]
  · rw [List.getD_eq_default]
    simpa using h

lemma copySlice_length (buf : List Nat) (off : Nat) (data : List Nat)
    (h : off + data.length ≤ buf.length) :
    (copySlice buf off data).length = buf.length := by
  simp [copySlice]
  omega

lemma copySlice_getD_lt (buf : List Nat) (off : Nat) (data : List Nat)
    (i : Nat) (hi : i < off) (hoff : off ≤ buf.length) :
    (copySlice buf off data).getD i 0 = buf.getD i 0 := by
  have hlen : (buf.take off).length = off := by
    simp
    omega
  simp only [copySlice, List.getD_eq_getElem?_getD]
  rw [List.getElem?_append_left
    (by rw [List.length_append, hlen]; omega)]
  rw [List.getElem?_append_left (by rw [hlen]; exact hi)]
  simp [List.getElem?_take, hi]

lemma copySlice_getD_mid (buf : List Nat) (off : Nat) (data : List Nat)
    (j : Nat) (hj : j < data.length) (h : off + data.length ≤ buf.length) :
    (copySlice buf off data).getD (off + j) 0 = data.getD j 0 := by
  have hlen : (buf.take off).length = off := by
    simp
    omega
  simp only [copySlice, List.getD_eq_getElem?_getD]
  rw [List.getElem?_append_left
    (by rw [List.length_append, hlen]; omega)]
  rw [List.getElem?_append_right (by rw [hlen]; omega)]
  rw [hlen]
  rw [show off + j - off = j from by omega]

lemma copySlice_getD_ge (buf : List Nat) (off : Nat) (data : List Nat)
    (i : Nat) (hi : off + data.length ≤ i) (h : off + data.length ≤ buf.length) :
    (copySlice buf off data).getD i 0 = buf.getD i 0 := by
  have hlen : (buf.take off).length = off := by
    simp
    omega
  simp only [copySlice, List.getD_eq_getElem?_getD]
  rw [List.getElem?_append_right
    (by rw [List.length_append, hlen]; omega)]
  rw [List.length_append, hlen]
  rw [List.getElem?_drop]
  congr 2
  omega

lemma getD_cons_succ_nat (a : Nat) (l : List Nat) (n : Nat) :
    (a :: l).getD (n + 1) 0 = l.getD n 0 := by
  simp [List.getD]

lemma wrapSlice_cons (c : Color) (cs : List Color) :
    Color.wrapSlice (c :: cs) = c.c0 :: c.c1 :: c.c2 :: Color.wrapSlice cs := by
  simp [Color.wrapSlice, Color.inner]

lemma wrapSlice_length (colors : List Color) :
    (Color.wrapSlice colors).length = 3 * colors.length := by
  induction colors with
  | nil => rfl
  | cons c cs ih =>
    rw [wrapSlice_cons]
    simp [ih]
    ring

lemma wrapSlice_getD (colors : List Color) (j : Nat) (hj : j < colors.length) :
    (Color.wrapSlice colors).getD (3 * j) 0
      = (colors.getD j (Color.new 0 0 0)).c0 ∧
    (Color.wrapSlice colors).getD (3 * j + 1) 0
      = (colors.getD j (Color.new 0 0 0)).c1 ∧
    (Color.wrapSlice colors).getD (3 * j + 2) 0
      = (colors.getD j (Color.new 0 0 0)).c2 := by
  induction colors generalizing j with
  | nil => simp at hj
  | cons c cs ih =>
    rw [wrapSlice_cons]
    match j with
    | 0 => simp [List.getD]
    | j + 1 =>
      have hj' : j < cs.length := by simpa using hj
      obtain ⟨i1, i2, i3⟩ := ih j hj'
      have htail : (c :: cs).getD (j + 1) (Color.new 0 0 0)
          = cs.getD j (Color.new 0 0 0) := by
        simp [List.getD]
      refine ⟨?_, ?_, ?_⟩
      · rw [show 3 * (j + 1) = 3 * j + 1 + 1 + 1 from by ring,
          getD_cons_succ_nat, getD_cons_succ_nat, getD_cons_succ_nat, htail]
        exact i1
      · rw [show 3 * (j + 1) + 1 = 3 * j + 1 + 1 + 1 + 1 from by ring,
          getD_cons_succ_nat, getD_cons_succ_nat, getD_cons_succ_nat, htail]
        exact i2
      · rw [show 3 * (j + 1) + 2 = 3 * j + 2 + 1 + 1 + 1 from by ring,
          getD_cons_succ_nat, getD_cons_succ_nat, getD_cons_succ_nat, htail]
        exact i3

lemma direct_header_getD (ch g j : Nat) :
    (((((List.replicate 64 (0 : Nat)).set 0x00 0x22).set
      0x01 (0x10 ||| g)).set 0x02 (1 <<< ch % 256)).set 0x03 0x00).getD j 0
      = if 3 = j then 0 else if 2 = j then 1 <<< ch % 256
        else if 1 = j then 0x10 ||| g else if 0 = j then 0x22 else 0 := by
  rw [getD_set_nat _ _ _ _ (by simp)]
  rw [getD_set_nat _ _ _ _ (by simp)]
  rw [getD_set_nat _ _ _ _ (by simp)]
  rw [getD_set_nat _ _ _ _ (by simp)]
  rw [getD_replicate_zero]

lemma apply_getD (ch j : Nat) :
    (send_apply_buf ch).getD j 0
      = if 0x0f = j then 0x01 else if 0x0c = j then 0x32
        else if 0x0a = j then 0x80 else if 0x07 = j then 0x28
        else if 0x04 = j then 0x01 else if 0x02 = j then 1 <<< ch % 256
        else if 0x01 = j then 0xa0 else if 0x00 = j then 0x22 else 0 := by
  rw [send_apply_buf]
  rw [getD_set_nat _ _ _ _ (by simp)]
  rw [getD_set_nat _ _ _ _ (by simp)]
  rw [getD_set_nat _ _ _ _ (by simp)]
  rw [getD_set_nat _ _ _ _ (by simp)]
  rw [getD_set_nat _ _ _ _ (by simp)]
  rw [getD_set_nat _ _ _ _ (by simp)]
  rw [getD_set_nat _ _ _ _ (by simp)]
  rw [getD_set_nat _ _ _ _ (by simp)]
  rw [getD_replicate_zero]

lemma shift_mask_small (ch : Nat) (hch : ch < 8) :
    1 <<< ch % 256 = 1 <<< ch := by
  have h1 : 1 <<< ch = 2 ^ ch := by
    rw [Nat.shiftLeft_eq, Nat.one_mul]
  have h2 : 2 ^ ch < 256 := by
    interval_cases ch <;> norm_num
  rw [h1]
  exact Nat.mod_eq_of_lt h2

/-- C3: a direct report for group g, channel k and m ≤ 20 colors is a
64-byte buffer with command byte 0x22, status byte 0x10 or g, the single
channel bit, a zero pad byte, the colors packed as (green, red, blue)
triples from offset 4, and zeros beyond; an apply report is a 64-byte
buffer with exactly the fixed bytes 0x22, 0xA0, the channel bit, and the
constants at offsets 4, 7, 10, 12, 15, all other bytes zero. -/
theorem report_byte_layout (ch g : Nat) (colors : List Color)
    (hch : ch < 8) (hg : g < 256) (hm : colors.length ≤ 20) :
    ((send_direct_buf ch g colors).length = 64 ∧
     (send_direct_buf ch g colors).getD 0 0 = 0x22 ∧
     (send_direct_buf ch g colors).getD 1 0 = 0x10 ||| g ∧
     (send_direct_buf ch g colors).getD 2 0 = 1 <<< ch ∧
     (send_direct_buf ch g colors).getD 3 0 = 0 ∧
     (∀ j, j < colors.length →
       (send_direct_buf ch g colors).getD (4 + 3 * j) 0
           = (colors.getD j (Color.new 0 0 0)).green ∧
       (send_direct_buf ch g colors).getD (4 + 3 * j + 1) 0
           = (colors.getD j (Color.new 0 0 0)).red ∧
       (send_direct_buf ch g colors).getD (4 + 3 * j + 2) 0
           = (colors.getD j (Color.new 0 0 0)).blue) ∧
     (∀ i, 4 + 3 * colors.length ≤ i →
       (send_direct_buf ch g colors).getD i 0 = 0)) ∧
    ((send_apply_buf ch).length = 64 ∧
     (send_apply_buf ch).getD 0x00 0 = 0x22 ∧
     (send_apply_buf ch).getD 0x01 0 = 0xa0 ∧
     (send_apply_buf ch).getD 0x02 0 = 1 <<< ch ∧
     (send_apply_buf ch).getD 0x04 0 = 0x01 ∧
     (send_apply_buf ch).getD 0x07 0 = 0x28 ∧
     (send_apply_buf ch).getD 0x0a 0 = 0x80 ∧
     (send_apply_buf ch).getD 0x0c 0 = 0x32 ∧
     (send_apply_buf ch).getD 0x0f 0 = 0x01 ∧
     (∀ i, i ≠ 0x00 → i ≠ 0x01 → i ≠ 0x02 → i ≠ 0x04 → i ≠ 0x07 →
       i ≠ 0x0a → i ≠ 0x0c → i ≠ 0x0f → (send_apply_buf ch).getD i 0 = 0)) := by
  have hmask := shift_mask_small ch hch
  have hwlen := wrapSlice_length colors
  have hBlen : (((((List.replicate 64 (0 : Nat)).set 0x00 0x22).set
      0x01 (0x10 ||| g)).set 0x02 (1 <<< ch % 256)).set 0x03 0x00).length
      = 64 := by
    simp
  have hfits : 4 + (Color.wrapSlice colors).length ≤ 64 := by omega
  have hdir : ∀ i : Nat, (send_direct_buf ch g colors).getD i 0
      = (copySlice (((((List.replicate 64 (0 : Nat)).set 0x00 0x22).set
          0x01 (0x10 ||| g)).set 0x02 (1 <<< ch % 256)).set 0x03 0x00) 0x04
          (Color.wrapSlice colors)).getD i 0 := fun i => rfl
  constructor
  · refine ⟨?_, ?_, ?_, ?_, ?_, ?_, ?_⟩
    · rw [send_direct_buf]
      rw [copySlice_length _ _ _ (by rw [hBlen]; exact hfits)]
      exact hBlen
    · rw [hdir 0, copySlice_getD_lt _ _ _ _ (by norm_num) (by rw [hBlen]; norm_num),
        direct_header_getD]
      norm_num
    · rw [hdir 1, copySlice_getD_lt _ _ _ _ (by norm_num) (by rw [hBlen]; norm_num),
        direct_header_getD]
      norm_num
    · rw [hdir 2, copySlice_getD_lt _ _ _ _ (by norm_num) (by rw [hBlen]; norm_num),
        direct_header_getD]
      norm_num [hmask]
    · rw [hdir 3, copySlice_getD_lt _ _ _ _ (by norm_num) (by rw [hBlen]; norm_num),
        direct_header_getD]
      norm_num
    · intro j hj
      obtain ⟨w1, w2, w3⟩ := wrapSlice_getD colors j hj
      refine ⟨?_, ?_, ?_⟩
      · rw [show 4 + 3 * j = 0x04 + 3 * j from rfl, hdir,
          copySlice_getD_mid _ _ _ _ (by omega) (by rw [hBlen]; exact hfits)]
        exact w1
      · rw [show 4 + 3 * j + 1 = 0x04 + (3 * j + 1) from by ring, hdir,
          copySlice_getD_mid _ _ _ _ (by omega) (by rw [hBlen]; exact hfits)]
        exact w2
      · rw [show 4 + 3 * j + 2 = 0x04 + (3 * j + 2) from by ring, hdir,
          copySlice_getD_mid _ _ _ _ (by omega) (by rw [hBlen]; exact hfits)]
        exact w3
    · intro i hi
      rw [hdir i, copySlice_getD_ge _ _ _ _ (by omega) (by rw [hBlen]; exact hfits),
        direct_header_getD]
      split_ifs <;> omega
  · refine ⟨by simp [send_apply_buf], ?_, ?_, ?_, ?_, ?_, ?_, ?_, ?_, ?_⟩
    · rw [apply_getD]
      norm_num
    · rw [apply_getD]
      norm_num
    · rw [apply_getD]
      norm_num [hmask]
    · rw [apply_getD]
      norm_num
    · rw [apply_getD]
      norm_num
    · rw [apply_getD]
      norm_num
    · rw [apply_getD]
      norm_num
    · rw [apply_getD]
      norm_num
    · intro i h0 h1 h2 h4 h7 ha hc hf
      rw [apply_getD]
      split_ifs <;> omega

/-- Witness for C3 at channel 1, group 2, one color. -/
theorem report_byte_layout_witness :
    (1 : Nat) < 8 ∧ (2 : Nat) < 256 ∧ [Color.new 9 8 7].length ≤ 20 ∧
    (send_direct_buf 1 2 [Color.new 9 8 7]).getD 2 0 = 1 <<< 1 :=
  ⟨by decide, by decide, by decide,
   (report_byte_layout 1 2 [Color.new 9 8 7] (by decide) (by decide)
     (by decide)).1.2.2.2.1⟩

/-! ## Claim C8: configuration errors and the order of device I/O -/

/-- C8 counterexample: with a readable sensor file holding malformed text
and one known device, the cpu-temp run ends with a fatal parse error, but
device discovery input/output has already been performed — the error is
not reported before device I/O is attempted. -/
theorem cpu_temp_malformed_after_device_io :
    (cpuTempRun 0 80 ⟨true, "abc".toList, 1⟩ 1).2 = true ∧
    Event.devWrite ∈ (cpuTempRun 0 80 ⟨true, "abc".toList, 1⟩ 1).1 := by
  refine ⟨by decide, by decide⟩

/-- C8 amended: a base ≥ warn configuration is fatal with no I/O at all,
an unreadable sensor file is fatal after only the file open attempt, and
malformed sensor content is fatal on the first poll iteration — which
runs only after device discovery has performed device I/O. -/
theorem cpu_temp_config_error_order (base warn : Nat) (env : CpuTempEnv)
    (fuel : Nat) :
    (warn ≤ base → cpuTempRun base warn env fuel = ([], true)) ∧
    (base < warn → env.fileReadable = false →
      cpuTempRun base warn env fuel = ([Event.fileOpen], true)) ∧
    (base < warn → env.fileReadable = true →
      parse_u64 env.fileContent = none → 0 < fuel →
      (cpuTempRun base warn env fuel).2 = true) := by
  refine ⟨?_, ?_, ?_⟩
  · intro h
    rw [cpuTempRun, if_pos (by omega)]
  · intro h1 h2
    rw [cpuTempRun, if_neg (by omega), if_pos h2]
  · intro h1 h2 h3 h4
    match fuel with
    | 0 => omega
    | f + 1 =>
      rw [cpuTempRun, if_neg (by omega), h2,
        if_neg (show ¬ (true = false) from by decide)]
      show (cpuTempLoop env (f + 1)).2 = true
      simp [cpuTempLoop, h3]

/-- Witness for C8 amended at base = warn = 5. -/
theorem cpu_temp_config_error_order_witness :
    (5 : Nat) ≤ 5 ∧ cpuTempRun 5 5 ⟨true, [], 0⟩ 3 = ([], true) :=
  ⟨by decide, (cpu_temp_config_error_order 5 5 ⟨true, [], 0⟩ 3).1 (by decide)⟩

/-! ## Claim C9: transport error propagation -/

/-- Total number of reports set_fixed_color writes for the given
per-channel LED counts. -/
def totalReports (ns : List Nat) : Nat := (ns.map reportsFor).sum

lemma sendN_ok_prefix (k : Nat) :
    ∀ (p : Nat) (rest : List (Except String Unit)), k ≤ p →
      sendN k (List.replicate p (Except.ok ()) ++ rest)
        = (Except.ok (), List.replicate (p - k) (Except.ok ()) ++ rest) := by
  induction k with
  | zero =>
    intro p rest hk
    simp [sendN]
  | succ k ih =>
    intro p rest hk
    match p with
    | p + 1 =>
      rw [List.replicate_succ, List.cons_append]
      rw [show sendN (k + 1) (Except.ok () :: (List.replicate p (Except.ok ()) ++ rest))
          = sendN k (List.replicate p (Except.ok ()) ++ rest) from by
        simp [sendN, popWrite]]
      rw [ih p rest (by omega), show p + 1 - (k + 1) = p - k from by omega]

lemma sendN_err_at (k : Nat) :
    ∀ (p : Nat) (e : String) (rest : List (Except String Unit)), p < k →
      sendN k (List.replicate p (Except.ok ()) ++ Except.error e :: rest)
        = (Except.error e, rest) := by
  induction k with
  | zero =>
    intro p e rest hk
    omega
  | succ k ih =>
    intro p e rest hk
    match p with
    | 0 =>
      simp [sendN, popWrite]
    | p + 1 =>
      rw [List.replicate_succ, List.cons_append]
      rw [show sendN (k + 1) (Except.ok () ::
          (List.replicate p (Except.ok ()) ++ Except.error e :: rest))
          = sendN k (List.replicate p (Except.ok ()) ++ Except.error e :: rest) from by
        simp [sendN, popWrite]]
      exact ih p e rest (by omega)

lemma set_fixed_color_first_error (ns : List Nat) :
    ∀ (p : Nat) (e : String) (rest : List (Except String Unit)),
      p < totalReports ns →
      (set_fixed_color_sim ns
        (List.replicate p (Except.ok ()) ++ Except.error e :: rest)).1
        = Except.error e := by
  induction ns with
  | nil =>
    intro p e rest hp
    simp [totalReports] at hp
  | cons n ns ih =>
    intro p e rest hp
    rw [set_fixed_color_sim]
    by_cases h : p < reportsFor n
    · rw [set_channel_leds_sim, sendN_err_at _ _ _ _ h]
    · rw [set_channel_leds_sim, sendN_ok_prefix _ _ _ (by omega)]
      have hp' : p - reportsFor n < totalReports ns := by
        simp only [totalReports, List.map_cons, List.sum_cons] at hp ⊢
        omega
      exact ih (p - reportsFor n) e rest hp'

/-- C9 counterexample: a known NZXT device whose open fails yields a
construction error, yet find_controllers returns the same empty list as
when no device exists at all — the open failure during discovery is
silently discarded, not surfaced to the caller. -/
theorem discovery_drops_open_error :
    controller_new_sim
        ⟨0x1E71, 0x2006, Except.error "open failed", Except.ok (), []⟩
        "NZXT Smart Device V2" 2
      = some (Except.error "open failed") ∧
    find_controllers_sim
        [⟨0x1E71, 0x2006, Except.error "open failed", Except.ok (), []⟩]
      = some [] ∧
    find_controllers_sim [] = some [] := by
  refine ⟨rfl, by decide, rfl⟩

/-- C9 amended: controller construction propagates the open error and the
probe write and read errors, and set_fixed_color propagates the first
failing write's error; find_controllers, however, logs and skips a device
whose construction fails, so discovery surfaces no open or probe failure
to its caller. -/
theorem transport_error_propagation :
    (∀ (d : DeviceSim) (name : String) (rgb : Nat) (e : String),
      d.openResult = Except.error e →
      controller_new_sim d name rgb = some (Except.error e)) ∧
    (∀ (d : DeviceSim) (name : String) (rgb : Nat) (e : String),
      d.openResult = Except.ok () → d.probeWrite = Except.error e →
      controller_new_sim d name rgb = some (Except.error e)) ∧
    (∀ (d : DeviceSim) (name : String) (rgb : Nat) (e : String)
        (pre : List (Nat × (Nat → Nat))),
      d.openResult = Except.ok () → d.probeWrite = Except.ok () →
      d.probeReads = pre.map Except.ok ++ [Except.error e] →
      (∀ x ∈ pre, ¬ (x.1 = 64 ∧ x.2 0 = 0x21 ∧ x.2 1 = 0x03)) →
      controller_new_sim d name rgb = some (Except.error e)) ∧
    (∀ (ns : List Nat) (p : Nat) (e : String)
        (rest : List (Except String Unit)), p < totalReports ns →
      (set_fixed_color_sim ns
        (List.replicate p (Except.ok ()) ++ Except.error e :: rest)).1
        = Except.error e) ∧
    (∀ (d : DeviceSim) (devs : List DeviceSim) (name : String)
        (rgb fan : Nat) (e : String), d.vendorId = NZXT_VID →
      known_controllers_lookup d.productId = some (name, rgb, fan) →
      controller_new_sim d name rgb = some (Except.error e) →
      find_controllers_sim (d :: devs) = find_controllers_sim devs) := by
  have hreadloop : ∀ (pre : List (Nat × (Nat → Nat))) (e : String),
      (∀ x ∈ pre, ¬ (x.1 = 64 ∧ x.2 0 = 0x21 ∧ x.2 1 = 0x03)) →
      probeReadLoop (pre.map Except.ok ++ [Except.error e])
        = some (Except.error e) := by
    intro pre e hpre
    induction pre with
    | nil => rfl
    | cons x xs ih =>
      rw [List.map_cons, List.cons_append, probeReadLoop]
      rw [if_neg (hpre x (List.mem_cons_self x xs))]
      exact ih fun y hy => hpre y (List.mem_cons_of_mem x hy)
  refine ⟨?_, ?_, ?_, set_fixed_color_first_error, ?_⟩
  · intro d name rgb e h
    simp [controller_new_sim, h]
  · intro d name rgb e h1 h2
    simp [controller_new_sim, get_channels_info_sim, h1, h2]
  · intro d name rgb e pre h1 h2 h3 h4
    simp [controller_new_sim, get_channels_info_sim, h1, h2, h3,
      hreadloop pre e h4]
  · intro d devs name rgb fan e h1 h2 h3
    simp [find_controllers_sim, h1, h2, h3]

/-- Witness for C9 amended: the open error propagates for a concrete
device. -/
theorem transport_error_propagation_witness :
    (⟨0x1E71, 0x2006, Except.error "open failed", Except.ok (), []⟩ :
        DeviceSim).openResult = Except.error "open failed" ∧
    controller_new_sim
        ⟨0x1E71, 0x2006, Except.error "open failed", Except.ok (), []⟩
        "NZXT Smart Device V2" 2
      = some (Except.error "open failed") :=
  ⟨rfl, transport_error_propagation.1
    ⟨0x1E71, 0x2006, Except.error "open failed", Except.ok (), []⟩
    "NZXT Smart Device V2" 2 "open failed" rfl⟩

end Nzxtcli
